import Mathlib

/-!
Shallow embedding of the MongoDB-backed Optuna storage engine
(`optuna_mongodb_storage.py`).

The backend collections are modelled as Lean lists of records
(`List StudyRecord`, `List TrialRecord`); the pymongo primitives the code
uses are modelled as list operations: `find_one` is `List.find?` (first
match), `count_documents` is `(List.filter _).length`, `insert_one` is
appending, and `replace_one` replaces the first matching record.  Python
exceptions are modelled with `Except StorageError`: an operation that
raises returns `.error e` and, since every write (`replace_one` /
`insert_one`) is the last step of each method, an `.error` result means
the stored tables are unchanged.

Floats that the code merely stores and passes through (objective values,
parameter values, attribute values) are modelled as `Int`; heartbeat and
server timestamps are modelled as `Int` microseconds, so the source's
`(current_time - last_heartbeat).total_seconds() > grace_period`
becomes `current_time - last_heartbeat > grace_period * 1000000`.
-/

set_option autoImplicit false

/-- `optuna.study.StudyDirection` (external enum used by the code). -/
inductive StudyDirection where
  | not_set
  | minimize
  | maximize
deriving DecidableEq

/-- `optuna.trial.TrialState` (external enum used by the code). -/
inductive TrialState where
  | running
  | complete
  | pruned
  | fail
  | waiting
deriving DecidableEq

/-- `TrialState.is_finished` from optuna: every state other than RUNNING and
WAITING (that is, COMPLETE, PRUNED, FAIL) is finished/terminal. -/
def TrialState.is_finished : TrialState → Bool
  | .running => false
  | .waiting => false
  | _ => true

/-- `_study_direction_to_str_map` (module-level table in the source). -/
def study_direction_to_str : StudyDirection → String
  | .maximize => "maximize"
  | .minimize => "minimize"
  | .not_set => "not_set"

/-- `_str_to_study_direction_map` (module-level table in the source);
a lookup of a key outside the table is a `KeyError`, hence `Option`. -/
def str_to_study_direction : String → Option StudyDirection
  | "maximize" => some StudyDirection.maximize
  | "minimize" => some StudyDirection.minimize
  | "not_set" => some StudyDirection.not_set
  | _ => none

/-- `_trial_state_to_str_map` (module-level table in the source). -/
def trial_state_to_str : TrialState → String
  | .running => "running"
  | .complete => "complete"
  | .pruned => "pruned"
  | .fail => "fail"
  | .waiting => "waiting"

/-- `_str_to_trial_state_map` (module-level table in the source). -/
def str_to_trial_state : String → Option TrialState
  | "running" => some TrialState.running
  | "complete" => some TrialState.complete
  | "pruned" => some TrialState.pruned
  | "fail" => some TrialState.fail
  | "waiting" => some TrialState.waiting
  | _ => none

/-- Python exceptions raised by the code, as an error type. -/
inductive StorageError where
  | keyError (msg : String)
  | runtimeError (msg : String)
  | valueError (msg : String)
  | duplicatedStudy
  | notImplemented
  | typeError
  | indexError
  | assertionError
deriving DecidableEq

/-- A Python `datetime.datetime` value: the components that
`str(...)` prints and `strptime` parses. -/
structure PyDateTime where
  year : Nat
  month : Nat
  day : Nat
  hour : Nat
  minute : Nat
  second : Nat
  microsecond : Nat
deriving DecidableEq

/-- Zero-pad the decimal representation of `n` to `width` digits
(Python `"%0Nd" % n`). -/
def padNum (width n : Nat) : String :=
  let s := toString n
  String.mk (List.replicate (width - s.length) '0') ++ s

/-- `str(datetime.datetime(...))`: `YYYY-MM-DD HH:MM:SS[.ffffff]`, where the
`.ffffff` microsecond suffix is printed only when `microsecond` is nonzero.
This is CPython `datetime.__str__` behaviour, which `_datetime_to_str`
relies on. -/
def pyDatetimeStr (t : PyDateTime) : String :=
  padNum 4 t.year ++ "-" ++ padNum 2 t.month ++ "-" ++ padNum 2 t.day ++ " " ++
    padNum 2 t.hour ++ ":" ++ padNum 2 t.minute ++ ":" ++ padNum 2 t.second ++
    (if t.microsecond = 0 then ("") else ("." ++ padNum 6 t.microsecond))

/-- `_datetime_to_str`: `None` maps to `None`, otherwise `str(time)`. -/
def _datetime_to_str : Option PyDateTime → Option String
  | none => none
  | some t => some (pyDatetimeStr t)

/-- Take up to `n` leading decimal digits of the character list. -/
def takeDigits : Nat → List Char → (List Char × List Char)
  | 0, cs => ([], cs)
  | _ + 1, [] => ([], [])
  | n + 1, c :: cs =>
    if c.isDigit then
      let p := takeDigits n cs
      (c :: p.1, p.2)
    else
      ([], c :: cs)

/-- Numeric value of a digit string. -/
def digitsToNat (ds : List Char) : Nat :=
  ds.foldl (fun acc c => 10 * acc + (c.toNat - Char.toNat '0')) 0

/-- Consume an expected literal character. -/
def expectChar (c : Char) : List Char → Option (List Char)
  | d :: cs => if d = c then some cs else none
  | [] => none

/-- Parse a 1- to `maxLen`-digit number whose value lies in `[lo, hi]`
(models the bounded alternation regexes CPython `_strptime` uses for
`%m`, `%d`, `%H`, `%M`, `%S`). -/
def parseNum (maxLen lo hi : Nat) (cs : List Char) : Option (Nat × List Char) :=
  let p := takeDigits maxLen cs
  if p.1.length = 0 then none
  else
    let v := digitsToNat p.1
    if lo ≤ v ∧ v ≤ hi then some (v, p.2) else none

/-- Parse an exactly-4-digit year (CPython `%Y` regex is four digits). -/
def parseYear (cs : List Char) : Option (Nat × List Char) :=
  let p := takeDigits 4 cs
  if p.1.length = 4 then some (digitsToNat p.1, p.2) else none

/-- Parse the `%f` fraction: 1 to 6 digits, zero-padded on the right to
microseconds (CPython `_strptime` semantics). -/
def parseFrac (cs : List Char) : Option (Nat × List Char) :=
  let p := takeDigits 6 cs
  if p.1.length = 0 then none
  else some (digitsToNat p.1 * 10 ^ (6 - p.1.length), p.2)

/-- `datetime.datetime.strptime(s, fmt)` for the one fixed format the code
uses, `%Y-%m-%d %H:%M:%S.%f`.  Field ranges follow CPython `_strptime`
regexes (`%S` admits leap seconds up to 61); cross-field calendar
validation (days per month) is not modelled, as no claim depends on it. -/
def strptimeYmdHmsF (s : String) : Option PyDateTime := do
  let cs := s.toList
  let (year, cs) ← parseYear cs
  let cs ← expectChar '-' cs
  let (month, cs) ← parseNum 2 1 12 cs
  let cs ← expectChar '-' cs
  let (day, cs) ← parseNum 2 1 31 cs
  let cs ← expectChar ' ' cs
  let (hour, cs) ← parseNum 2 0 23 cs
  let cs ← expectChar ':' cs
  let (minute, cs) ← parseNum 2 0 59 cs
  let cs ← expectChar ':' cs
  let (second, cs) ← parseNum 2 0 61 cs
  let cs ← expectChar '.' cs
  let (microsecond, cs) ← parseFrac cs
  if cs = [] then
    some { year := year, month := month, day := day, hour := hour,
           minute := minute, second := second, microsecond := microsecond }
  else
    none

/-- `_str_to_datetime`: `None` maps to `None`, otherwise
`datetime.datetime.strptime(dt_str, "%Y-%m-%d %H:%M:%S.%f")`; a string the
format does not match raises `ValueError`. -/
def _str_to_datetime : Option String → Except StorageError (Option PyDateTime)
  | none => .ok none
  | some s =>
    match strptimeYmdHmsF s with
    | some dt => .ok (some dt)
    | none => .error (.valueError ("time data does not match format"))

/-- A document of the `studies` collection, with the exact field set
written by `create_new_study`.  `directions` holds `StudyDirection`
values; the string round-trip through the module-level tables is a proven
bijection (`direction_str_roundtrip`). -/
structure StudyRecord where
  study_name : String
  directions : List StudyDirection
  user_attrs : List (String × Int)
  system_attrs : List (String × Int)
  study_id : Nat
  deleted : Bool
  datetime_start : Option String
deriving DecidableEq

/-- A document of the `trials` collection, with the exact field set
written by `create_new_trial` / `_convert_frozen_trial_to_record`.
`state` holds a `TrialState`; the string round-trip through the
module-level tables is a proven bijection (`trial_state_str_roundtrip`).
`intermediate_values` is keyed by `str(step)` exactly as stored.
`heartbeat` is a server timestamp in microseconds. -/
structure TrialRecord where
  study_id : Nat
  trial_id : Nat
  number : Nat
  state : TrialState
  params : List (String × Int)
  distributions : List (String × String)
  user_attrs : List (String × Int)
  system_attrs : List (String × Int)
  values : Option (List Int)
  intermediate_values : List (String × Int)
  datetime_start : Option String
  datetime_complete : Option String
  heartbeat : Option Int
deriving DecidableEq

/-- Python dict assignment `d[k] = v`: overwrite in place if the key is
present (keeping insertion order), otherwise append. -/
def dictInsert {α : Type} (d : List (String × α)) (k : String) (v : α) :
    List (String × α) :=
  if d.any (fun p => p.1 == k) then
    d.map (fun p => if p.1 == k then (k, v) else p)
  else
    d ++ [(k, v)]

/-- `trial_table.replace_one({"trial_id": trial_id}, new)`: replace the
first matching document. -/
def trial_replace_one : List TrialRecord → Nat → TrialRecord → List TrialRecord
  | [], _, _ => []
  | t :: ts, tid, new =>
    if t.trial_id == tid then new :: ts else t :: trial_replace_one ts tid new

/-- `study_table.replace_one({"study_id": study_id}, new)`: replace the
first matching document. -/
def study_replace_one : List StudyRecord → Nat → StudyRecord → List StudyRecord
  | [], _, _ => []
  | s :: ss, sid, new =>
    if s.study_id == sid then new :: ss else s :: study_replace_one ss sid new

/-- `_check_study_id`: requires exactly one non-deleted document with this
`study_id`, else `KeyError`. -/
def _check_study_id (studies : List StudyRecord) (study_id : Nat) :
    Except StorageError Unit :=
  if (studies.filter (fun s => s.study_id == study_id && !s.deleted)).length = 1 then
    .ok ()
  else
    .error (.keyError ("study_id " ++ toString study_id ++ " does not exist."))

/-- `_get_study_record`: `find_one({"study_id": study_id})` — note the
source does not filter on `deleted` here. -/
def _get_study_record (studies : List StudyRecord) (study_id : Nat) :
    Option StudyRecord :=
  studies.find? (fun s => s.study_id == study_id)

/-- `create_new_study`.  The caller-side `datetime.datetime.now()` is the
`now` parameter.  Returns the new studies table and the allocated id; the
source raises `DuplicatedStudyError` before any insert when an explicit
name is already taken by any record, deleted or not. -/
def create_new_study (studies : List StudyRecord) (given_name : Option String)
    (now : PyDateTime) : Except StorageError (List StudyRecord × Nat) :=
  if given_name ≠ none ∧
      (studies.filter (fun s => some s.study_name == given_name)).length ≠ 0 then
    .error .duplicatedStudy
  else
    let study_id := studies.length
    let study_name :=
      match given_name with
      | none => "no-name-" ++ padNum 10 study_id
      | some nm => nm
    let record : StudyRecord :=
      { study_name := study_name
        directions := [StudyDirection.not_set]
        user_attrs := []
        system_attrs := []
        study_id := study_id
        deleted := false
        datetime_start := _datetime_to_str (some now) }
    .ok (studies ++ [record], study_id)

/-- `set_study_directions`.  The source reads the current directions,
indexes `current_directions[0]` (an `IndexError` on an empty list), and
raises `ValueError` when the head is concrete and the requested sequence
differs; the source's message interpolates the two sequences, modelled
here by a fixed message. -/
def set_study_directions (studies : List StudyRecord) (study_id : Nat)
    (directions : List StudyDirection) : Except StorageError (List StudyRecord) :=
  match _check_study_id studies study_id with
  | .error e => .error e
  | .ok _ =>
    match _get_study_record studies study_id with
    | none => .error .typeError
    | some study_record =>
      match study_record.directions with
      | [] => .error .indexError
      | c0 :: _ =>
        if c0 ≠ StudyDirection.not_set ∧ study_record.directions ≠ directions then
          .error (.valueError ("Cannot overwrite study direction."))
        else
          .ok (study_replace_one studies study_id
            { study_record with directions := directions })

/-- `_check_trial_id`: requires exactly one document with this `trial_id`,
else `KeyError`. -/
def _check_trial_id (trials : List TrialRecord) (trial_id : Nat) :
    Except StorageError Unit :=
  if (trials.filter (fun t => t.trial_id == trial_id)).length = 1 then
    .ok ()
  else
    .error (.keyError ("trial_id " ++ toString trial_id ++ " does not exist."))

/-- `_get_trial_record`: `find_one({"trial_id": trial_id})`. -/
def _get_trial_record (trials : List TrialRecord) (trial_id : Nat) :
    Option TrialRecord :=
  trials.find? (fun t => t.trial_id == trial_id)

/-- The message of the `RuntimeError` raised by `check_trial_is_updatable`,
which embeds the trial's per-study `number`. -/
def finished_message (number : Nat) : String :=
  "Trial#" ++ toString number ++ " has already finished and can not be updated."

/-- `check_trial_is_updatable(trial_id, trial_state)`: raises
`RuntimeError` when the given state is finished.  The source re-fetches
the trial record to embed its `number` in the message; every caller
passes the state of that same record, so the embedding takes the
record's `number` directly. -/
def check_trial_is_updatable (number : Nat) (trial_state : TrialState) :
    Except StorageError Unit :=
  if trial_state.is_finished then
    .error (.runtimeError (finished_message number))
  else
    .ok ()

/-- An optuna `BaseDistribution` as the code uses it: an external-repr
conversion for parameter values plus its `distribution_to_json`
serialization. -/
structure DistributionModel where
  to_external_repr : Int → Int
  asJson : String

/-- `create_new_trial` (default-template path; a supplied template only
replaces the initial record with `_convert_frozen_trial_to_record` of the
template, which no claim depends on).  The source builds the default
record with placeholder ids, checks the study, then allocates
`trial_id` as the global document count and `number` as the per-study
document count, and inserts. -/
def create_new_trial (studies : List StudyRecord) (trials : List TrialRecord)
    (study_id : Nat) (now : PyDateTime) :
    Except StorageError (List TrialRecord × Nat) :=
  let default_record : TrialRecord :=
    { study_id := study_id
      trial_id := 0
      number := 0
      state := TrialState.running
      params := []
      distributions := []
      user_attrs := []
      system_attrs := []
      values := none
      intermediate_values := []
      datetime_start := _datetime_to_str (some now)
      datetime_complete := none
      heartbeat := none }
  match _check_study_id studies study_id with
  | .error e => .error e
  | .ok _ =>
    let trial_id := trials.length
    let trial_number := (trials.filter (fun t => t.study_id == study_id)).length
    let record := { default_record with trial_id := trial_id, number := trial_number }
    .ok (trials ++ [record], trial_id)

/-- `set_trial_param`: existence check, fetch, updatability check, then
store the external repr of the value and the serialized distribution
under `param_name`, and `replace_one`. -/
def set_trial_param (trials : List TrialRecord) (trial_id : Nat)
    (param_name : String) (param_value_internal : Int)
    (distribution : DistributionModel) : Except StorageError (List TrialRecord) :=
  match _check_trial_id trials trial_id with
  | .error e => .error e
  | .ok _ =>
    match _get_trial_record trials trial_id with
    | none => .error .typeError
    | some trial_record =>
      match check_trial_is_updatable trial_record.number trial_record.state with
      | .error e => .error e
      | .ok _ =>
        .ok (trial_replace_one trials trial_id
          { trial_record with
            params := dictInsert trial_record.params param_name
              (distribution.to_external_repr param_value_internal)
            distributions := dictInsert trial_record.distributions param_name
              distribution.asJson })

/-- `set_trial_state_values`: existence check, fetch, updatability check;
a RUNNING request on a RUNNING trial returns `false` with no write,
otherwise the state and values are written and `true` returned.  Note the
source never touches `datetime_complete` here. -/
def set_trial_state_values (trials : List TrialRecord) (trial_id : Nat)
    (state : TrialState) (values : Option (List Int)) :
    Except StorageError (List TrialRecord × Bool) :=
  match _check_trial_id trials trial_id with
  | .error e => .error e
  | .ok _ =>
    match _get_trial_record trials trial_id with
    | none => .error .typeError
    | some trial_record =>
      match check_trial_is_updatable trial_record.number trial_record.state with
      | .error e => .error e
      | .ok _ =>
        if trial_record.state = state ∧ state = TrialState.running then
          .ok (trials, false)
        else
          .ok (trial_replace_one trials trial_id
            { trial_record with state := state, values := values }, true)

/-- `set_trial_intermediate_value`: existence check, fetch, updatability
check, then store under key `str(step)` and `replace_one`. -/
def set_trial_intermediate_value (trials : List TrialRecord) (trial_id : Nat)
    (step : Int) (intermediate_value : Int) :
    Except StorageError (List TrialRecord) :=
  match _check_trial_id trials trial_id with
  | .error e => .error e
  | .ok _ =>
    match _get_trial_record trials trial_id with
    | none => .error .typeError
    | some trial_record =>
      match check_trial_is_updatable trial_record.number trial_record.state with
      | .error e => .error e
      | .ok _ =>
        .ok (trial_replace_one trials trial_id
          { trial_record with
            intermediate_values := dictInsert trial_record.intermediate_values
              (toString step) intermediate_value })

/-- `set_trial_user_attr`: the source body is `raise NotImplementedError`. -/
def set_trial_user_attr (_trials : List TrialRecord) (_trial_id : Nat)
    (_key : String) (_value : Int) : Except StorageError (List TrialRecord) :=
  .error .notImplemented

/-- `set_trial_system_attr`: the source body is `raise NotImplementedError`. -/
def set_trial_system_attr (_trials : List TrialRecord) (_trial_id : Nat)
    (_key : String) (_value : Int) : Except StorageError (List TrialRecord) :=
  .error .notImplemented

/-- The heartbeat configuration the constructor stores:
`heartbeat_interval` and `grace_period`, both optional. -/
structure HeartbeatConfig where
  heartbeat_interval : Option Int
  grace_period : Option Int
deriving DecidableEq

/-- The loop body of `_get_stale_trial_ids`: walk the RUNNING trials in
order, collecting the `trial_id` of each whose heartbeat is older than
the grace period.  A record whose `heartbeat` is `None` raises
`TypeError` (the source subtracts it from the server time). -/
def _stale_scan (grace_period current_time : Int) :
    List TrialRecord → Except StorageError (List Nat)
  | [] => .ok []
  | t :: ts =>
    match t.heartbeat with
    | none => .error .typeError
    | some hb =>
      if current_time - hb > grace_period * 1000000 then
        match _stale_scan grace_period current_time ts with
        | .error e => .error e
        | .ok ids => .ok (t.trial_id :: ids)
      else
        _stale_scan grace_period current_time ts

/-- `_get_stale_trial_ids`: asserts a heartbeat interval is configured,
computes the grace period (configured value, else twice the interval),
filters the RUNNING trials of the study, reads the backend server time
(the `current_time` parameter) and scans. -/
def _get_stale_trial_ids (cfg : HeartbeatConfig) (trials : List TrialRecord)
    (study_id : Nat) (current_time : Int) : Except StorageError (List Nat) :=
  match cfg.heartbeat_interval with
  | none => .error .assertionError
  | some heartbeat_interval =>
    let grace_period : Int :=
      match cfg.grace_period with
      | none => 2 * heartbeat_interval
      | some g => g
    _stale_scan grace_period current_time
      (trials.filter (fun t => t.study_id == study_id &&
        t.state == TrialState.running))

/-- A value projected out of a trial document by field name. -/
inductive DocValue where
  | asNat (n : Nat)
  | asState (s : TrialState)
  | dictInt (d : List (String × Int))
  | dictStr (d : List (String × String))
  | optList (l : Option (List Int))
  | optStr (s : Option String)
  | optInt (i : Option Int)
deriving DecidableEq

/-- `record[field]` on a trial document: the thirteen keys every trial
document carries (see `create_new_trial` and
`_convert_frozen_trial_to_record`); any other key is absent. -/
def trialRecordField (record : TrialRecord) : String → Option DocValue
  | "study_id" => some (.asNat record.study_id)
  | "trial_id" => some (.asNat record.trial_id)
  | "number" => some (.asNat record.number)
  | "state" => some (.asState record.state)
  | "params" => some (.dictInt record.params)
  | "distributions" => some (.dictStr record.distributions)
  | "user_attrs" => some (.dictInt record.user_attrs)
  | "system_attrs" => some (.dictInt record.system_attrs)
  | "values" => some (.optList record.values)
  | "intermediate_values" => some (.dictInt record.intermediate_values)
  | "datetime_start" => some (.optStr record.datetime_start)
  | "datetime_complete" => some (.optStr record.datetime_complete)
  | "heartbeat" => some (.optInt record.heartbeat)
  | _ => none

/-- `_get_trial_record_field`: `self._get_trial_record(trial_id)[field]`.
A missing document makes the subscript a `TypeError` (`None[field]`); a
missing key is a `KeyError`. -/
def _get_trial_record_field (trials : List TrialRecord) (trial_id : Nat)
    (field : String) : Except StorageError DocValue :=
  match _get_trial_record trials trial_id with
  | none => .error .typeError
  | some record =>
    match trialRecordField record field with
    | none => .error (.keyError field)
    | some v => .ok v

/-- `get_trial_param`: checks the trial id, then projects the field
literally named `"param"` — not `"params"` — ignoring `param_name`. -/
def get_trial_param (trials : List TrialRecord) (trial_id : Nat)
    (_param_name : String) : Except StorageError DocValue :=
  match _check_trial_id trials trial_id with
  | .error e => .error e
  | .ok _ => _get_trial_record_field trials trial_id ("param")

/-- The fields of the optuna `FrozenTrial` that
`_convert_record_to_frozen_trial` fills from the document (distributions
and intermediate-value key decoding are handled by external optuna
codecs and carried through unmodelled). -/
structure FrozenTrialView where
  trial_id : Nat
  number : Nat
  state : TrialState
  params : List (String × Int)
  user_attrs : List (String × Int)
  system_attrs : List (String × Int)
  value : Option Int
  values : Option (List Int)
  datetime_start : Option PyDateTime
  datetime_complete : Option PyDateTime
deriving DecidableEq

/-- `_convert_record_to_frozen_trial`: the single/multi objective-value
reconciliation (`None` → both unset; a one-element list → single view;
anything else → multi view), then field translation; the two stored
timestamp strings are parsed with `_str_to_datetime`, which can raise. -/
def _convert_record_to_frozen_trial (trial_record : TrialRecord) :
    Except StorageError FrozenTrialView :=
  let vv : Option Int × Option (List Int) :=
    match trial_record.values with
    | none => (none, none)
    | some l => if l.length = 1 then (l[0]?, none) else (none, some l)
  match _str_to_datetime trial_record.datetime_start with
  | .error e => .error e
  | .ok ds =>
    match _str_to_datetime trial_record.datetime_complete with
    | .error e => .error e
    | .ok dc =>
      .ok { trial_id := trial_record.trial_id
            number := trial_record.number
            state := trial_record.state
            params := trial_record.params
            user_attrs := trial_record.user_attrs
            system_attrs := trial_record.system_attrs
            value := vv.1
            values := vv.2
            datetime_start := ds
            datetime_complete := dc }

/-- `get_trial`: existence check, fetch, convert. -/
def get_trial (trials : List TrialRecord) (trial_id : Nat) :
    Except StorageError FrozenTrialView :=
  match _check_trial_id trials trial_id with
  | .error e => .error e
  | .ok _ =>
    match _get_trial_record trials trial_id with
    | none => .error .typeError
    | some trial_record => _convert_record_to_frozen_trial trial_record

/-- The directions sequences the specification calls concrete: non-empty
and containing no NOT_SET entry. -/
def concreteDirections (ds : List StudyDirection) : Prop :=
  ds ≠ [] ∧ StudyDirection.not_set ∉ ds

/-- A sample distribution: identity external repr, fixed JSON form. -/
def distModel0 : DistributionModel :=
  { to_external_repr := fun v => v, asJson := "FloatDistribution" }

/-- A finished (COMPLETE) trial document. -/
def recTerm : TrialRecord :=
  { study_id := 0, trial_id := 0, number := 0, state := TrialState.complete
    params := [], distributions := [], user_attrs := [], system_attrs := []
    values := some [1], intermediate_values := []
    datetime_start := none, datetime_complete := none, heartbeat := none }

/-- A RUNNING trial document with no recorded values. -/
def recRun0 : TrialRecord :=
  { study_id := 0, trial_id := 0, number := 0, state := TrialState.running
    params := [], distributions := [], user_attrs := [], system_attrs := []
    values := none, intermediate_values := []
    datetime_start := none, datetime_complete := none, heartbeat := none }

/-- A trial document storing exactly one objective value. -/
def recSingle : TrialRecord :=
  { recRun0 with trial_id := 1, values := some [7] }

/-- A trial document storing an empty objective-value list. -/
def recEmptyVals : TrialRecord :=
  { recRun0 with trial_id := 2, values := some [] }

/-- A study document fresh from creation. -/
def studyRec0 : StudyRecord :=
  { study_name := "s1", directions := [StudyDirection.not_set]
    user_attrs := [], system_attrs := [], study_id := 0, deleted := false
    datetime_start := none }

/-- A study document whose directions are established. -/
def studyRecConcrete : StudyRecord :=
  { studyRec0 with directions := [StudyDirection.maximize] }

/-- A heartbeat configuration: 10-second interval, no explicit grace
period (so the effective grace period is 20 seconds). -/
def cfg0 : HeartbeatConfig := { heartbeat_interval := some 10, grace_period := none }

/-- A RUNNING trial whose heartbeat (at server time 0) is stale once the
server clock passes 20 seconds. -/
def tStale : TrialRecord := { recRun0 with trial_id := 3, heartbeat := some 0 }

/-- A RUNNING trial heartbeating at server time 2 s — fresh at 21 s. -/
def tFresh : TrialRecord :=
  { recRun0 with trial_id := 4, heartbeat := some 2000000 }

/-- The frozen view of `recSingle`. -/
def viewSingle : FrozenTrialView :=
  { trial_id := 1, number := 0, state := TrialState.running
    params := [], user_attrs := [], system_attrs := []
    value := some 7, values := none
    datetime_start := none, datetime_complete := none }

/-- The string codec of directions is a bijection on enum values,
justifying storing `StudyDirection` directly in `StudyRecord`. -/
theorem direction_str_roundtrip (d : StudyDirection) :
    str_to_study_direction (study_direction_to_str d) = some d := by
  cases d <;> rfl

/-- The string codec of trial states is a bijection on enum values,
justifying storing `TrialState` directly in `TrialRecord`. -/
theorem trial_state_str_roundtrip (s : TrialState) :
    str_to_trial_state (trial_state_to_str s) = some s := by
  cases s <;> rfl

/-- A passing `_check_trial_id` guarantees `find_one` returns a document,
and that document carries the requested id. -/
theorem check_trial_id_gives_record {trials : List TrialRecord} {tid : Nat}
    (h : _check_trial_id trials tid = .ok ()) :
    ∃ r, _get_trial_record trials tid = some r ∧ r.trial_id = tid := by
  unfold _check_trial_id at h
  split at h
  · rename_i hlen
    have hne : trials.filter (fun t => t.trial_id == tid) ≠ [] := by
      intro hnil
      rw [hnil] at hlen
      simp at hlen
    obtain ⟨x, hx⟩ := List.exists_mem_of_ne_nil _ hne
    have hx' := List.mem_filter.mp hx
    have : (_get_trial_record trials tid).isSome := by
      unfold _get_trial_record
      exact List.find?_isSome.mpr ⟨x, hx'.1, hx'.2⟩
    obtain ⟨r, hr⟩ := Option.isSome_iff_exists.mp this
    refine ⟨r, hr, ?_⟩
    have := List.find?_some hr
    simpa using this
  · simp at h

/-- Replacing the first document with a given `trial_id` by a document
with the same `trial_id` preserves the count of matching documents. -/
theorem trial_replace_preserves_count (trials : List TrialRecord) (tid : Nat)
    (new : TrialRecord) (hnew : new.trial_id = tid) :
    ((trial_replace_one trials tid new).filter (fun t => t.trial_id == tid)).length =
      (trials.filter (fun t => t.trial_id == tid)).length := by
  induction trials with
  | nil => rfl
  | cons t ts ih =>
    unfold trial_replace_one
    by_cases h : t.trial_id == tid
    · simp [h, List.filter, hnew]
    · simp [List.filter, h, ih]

/-- After replacing the first study document with id `sid` by `new`
(also carrying id `sid`), `find_one` returns `new`. -/
theorem get_study_record_replace (studies : List StudyRecord) (sid : Nat)
    (new old : StudyRecord) (hfind : _get_study_record studies sid = some old)
    (hnew : new.study_id = sid) :
    _get_study_record (study_replace_one studies sid new) sid = some new := by
  induction studies with
  | nil => simp [_get_study_record] at hfind
  | cons s ss ih =>
    by_cases h : (s.study_id == sid) = true
    · have hrep : study_replace_one (s :: ss) sid new = new :: ss := by
        rw [study_replace_one, if_pos h]
      unfold _get_study_record
      rw [hrep]
      exact List.find?_cons_of_pos (p := fun (x : StudyRecord) => x.study_id == sid) _
        (by simpa using hnew)
    · have hrep : study_replace_one (s :: ss) sid new =
          s :: study_replace_one ss sid new := by
        rw [study_replace_one, if_neg h]
      unfold _get_study_record at hfind ⊢
      rw [hrep, List.find?_cons_of_neg (p := fun (x : StudyRecord) => x.study_id == sid) _ h]
      rw [List.find?_cons_of_neg (p := fun (x : StudyRecord) => x.study_id == sid) _ h] at hfind
      exact ih hfind

/-- C1: a trial whose current state is terminal (COMPLETE, PRUNED or FAIL,
exactly the `is_finished` states) makes every mutating operation —
`set_trial_param`, `set_trial_intermediate_value`, and
`set_trial_state_values` for any requested state — fail with the
`RuntimeError` whose message embeds the trial's per-study `number`
(`finished_message`); since the write is the last step of each operation,
an error leaves the stored table unchanged.  When the current state is
RUNNING or WAITING, the same operations pass this check and succeed. -/
theorem terminal_trial_rejects_mutations (trials : List TrialRecord) (tid : Nat)
    (record : TrialRecord) (hfind : _get_trial_record trials tid = some record)
    (hcheck : _check_trial_id trials tid = .ok ()) :
    (record.state.is_finished = true →
      (∀ name v dist, set_trial_param trials tid name v dist =
          .error (.runtimeError (finished_message record.number))) ∧
      (∀ step iv, set_trial_intermediate_value trials tid step iv =
          .error (.runtimeError (finished_message record.number))) ∧
      (∀ st vs, set_trial_state_values trials tid st vs =
          .error (.runtimeError (finished_message record.number)))) ∧
    ((record.state = TrialState.running ∨ record.state = TrialState.waiting) →
      (∀ name v dist, (set_trial_param trials tid name v dist).isOk = true) ∧
      (∀ step iv, (set_trial_intermediate_value trials tid step iv).isOk = true) ∧
      (∀ st vs, (set_trial_state_values trials tid st vs).isOk = true)) := by
  constructor
  · intro hfin
    refine ⟨fun name v dist => ?_, fun step iv => ?_, fun st vs => ?_⟩ <;>
      simp [set_trial_param, set_trial_intermediate_value, set_trial_state_values,
        hcheck, hfind, check_trial_is_updatable, hfin]
  · intro hs
    have hfin : record.state.is_finished = false := by
      rcases hs with h | h <;> rw [h] <;> rfl
    refine ⟨fun name v dist => ?_, fun step iv => ?_, fun st vs => ?_⟩ <;>
      simp only [set_trial_param, set_trial_intermediate_value,
        set_trial_state_values, hcheck, hfind, check_trial_is_updatable, hfin,
        Bool.false_eq_true, if_false] <;>
      first
      | rfl
      | split <;> rfl

/-- Witness for C1: on a one-trial table holding a COMPLETE trial, a
state write fails with the finished-trial error; on a RUNNING trial a
parameter write succeeds. -/
theorem terminal_trial_rejects_mutations_witness :
    set_trial_state_values [recTerm] 0 TrialState.complete (some [2]) =
      .error (.runtimeError (finished_message 0)) ∧
    (set_trial_param [recRun0] 0 ("x") 1 distModel0).isOk = true := by
  constructor
  · exact ((terminal_trial_rejects_mutations [recTerm] 0 recTerm rfl rfl).1 rfl).2.2
      TrialState.complete (some [2])
  · exact ((terminal_trial_rejects_mutations [recRun0] 0 recRun0 rfl rfl).2
      (Or.inl rfl)).1 ("x") 1 distModel0

/-- Counterexample for C2 as stated: `recEmptyVals` stores an empty
objective-value list — zero recorded objective values — yet reading it
back exposes the multi-value view as the empty list, not as unset. -/
theorem value_values_claim_counterexample :
    recEmptyVals.values = some [] ∧
    Except.map (fun v => (v.value, v.values)) (_convert_record_to_frozen_trial recEmptyVals) =
      .ok ((none : Option Int), some ([] : List Int)) := by
  exact ⟨rfl, rfl⟩

/-- A successful conversion computes the two objective views from the
stored values field alone. -/
theorem convert_ok_value_views (record : TrialRecord) (view : FrozenTrialView)
    (hconv : _convert_record_to_frozen_trial record = .ok view) :
    view.value = (match record.values with
      | none => none
      | some l => if l.length = 1 then l[0]? else none) ∧
    view.values = (match record.values with
      | none => none
      | some l => if l.length = 1 then none else some l) := by
  cases hds : _str_to_datetime record.datetime_start with
  | error e =>
    simp only [_convert_record_to_frozen_trial, hds] at hconv
    exact absurd hconv (by simp)
  | ok ds =>
    cases hdc : _str_to_datetime record.datetime_complete with
    | error e =>
      simp only [_convert_record_to_frozen_trial, hds, hdc] at hconv
      exact absurd hconv (by simp)
    | ok dc =>
      simp only [_convert_record_to_frozen_trial, hds, hdc] at hconv
      have hv := Except.ok.inj hconv
      subst hv
      cases record.values with
      | none => exact ⟨rfl, rfl⟩
      | some l =>
        by_cases hl : l.length = 1 <;>
          constructor <;>
          simp [hl]

/-- C2 amended: reading a stored trial back reconciles the objective
views as the code does — a `None` values field yields both views unset;
a one-element list `[v]` yields `value = v` with the multi view unset;
any other stored list, the empty list included, yields `value` unset and
`values` equal to the stored list. -/
theorem value_values_reconciliation (record : TrialRecord) :
    (record.values = none →
      ∀ view, _convert_record_to_frozen_trial record = .ok view →
        view.value = none ∧ view.values = none) ∧
    (∀ v, record.values = some [v] →
      ∀ view, _convert_record_to_frozen_trial record = .ok view →
        view.value = some v ∧ view.values = none) ∧
    (∀ l, record.values = some l → l.length ≠ 1 →
      ∀ view, _convert_record_to_frozen_trial record = .ok view →
        view.value = none ∧ view.values = some l) := by
  refine ⟨?_, ?_, ?_⟩
  · intro h view hconv
    obtain ⟨h1, h2⟩ := convert_ok_value_views record view hconv
    rw [h] at h1 h2
    exact ⟨h1, h2⟩
  · intro v h view hconv
    obtain ⟨h1, h2⟩ := convert_ok_value_views record view hconv
    rw [h] at h1 h2
    simp at h1 h2
    exact ⟨h1, h2⟩
  · intro l h hlen view hconv
    obtain ⟨h1, h2⟩ := convert_ok_value_views record view hconv
    rw [h] at h1 h2
    simp only [if_neg hlen] at h1 h2
    exact ⟨h1, h2⟩

/-- Witness for C2 (amended): the one-value record `recSingle` converts
to `viewSingle`, whose single view is `7` and multi view unset. -/
theorem value_values_reconciliation_witness :
    recSingle.values = some [7] ∧ viewSingle.value = some 7 ∧ viewSingle.values = none := by
  exact ⟨rfl, (value_values_reconciliation recSingle).2.1 7 rfl viewSingle rfl⟩

/-- C3: a freshly created study has directions `[NOT_SET]`;
`set_study_directions` succeeds when the current directions are
`[NOT_SET]` or already equal the (non-empty, per the specification)
requested sequence — writing the requested sequence, hence idempotent in
the second case; it fails with `ValueError` when a concrete sequence is
established and the request differs; consequently, once concrete, the
stored directions never change. -/
theorem study_directions_invariant (studies : List StudyRecord) (sid : Nat)
    (record : StudyRecord) (ds : List StudyDirection) (hds : ds ≠ [])
    (hfind : _get_study_record studies sid = some record)
    (hcheck : _check_study_id studies sid = .ok ()) :
    (∀ given_name now studies' newId,
      create_new_study studies given_name now = .ok (studies', newId) →
        ∃ r, studies' = studies ++ [r] ∧ r.study_id = newId ∧
          r.directions = [StudyDirection.not_set]) ∧
    (record.directions = [StudyDirection.not_set] ∨ record.directions = ds →
      set_study_directions studies sid ds =
        .ok (study_replace_one studies sid { record with directions := ds })) ∧
    (concreteDirections record.directions → record.directions ≠ ds →
      set_study_directions studies sid ds =
        .error (.valueError ("Cannot overwrite study direction."))) ∧
    (concreteDirections record.directions →
      ∀ studies', set_study_directions studies sid ds = .ok studies' →
        _get_study_record studies' sid = some record) := by
  have hid : record.study_id = sid := by
    have := List.find?_some hfind
    simpa using this
  refine ⟨?_, ?_, ?_, ?_⟩
  · intro given_name now studies' newId hok
    unfold create_new_study at hok
    split at hok
    · exact absurd hok (by simp)
    · injection hok with h'
      injection h' with h1 h2
      subst h1
      subst h2
      exact ⟨_, rfl, rfl, rfl⟩
  · intro hcur
    rcases hcur with hcur | hcur
    · simp [set_study_directions, hcheck, hfind, hcur]
    · obtain ⟨d, ds', rfl⟩ := List.exists_cons_of_ne_nil hds
      simp [set_study_directions, hcheck, hfind, hcur]
  · intro hconc hne
    obtain ⟨d, rest, hcons⟩ := List.exists_cons_of_ne_nil hconc.1
    have hd0 : ¬d = StudyDirection.not_set := by
      intro hd
      exact hconc.2 (hd ▸ hcons ▸ List.mem_cons_self ..)
    have hne0 : ¬d :: rest = ds := hcons ▸ hne
    simp only [set_study_directions, hcheck, hfind, hcons]
    rw [if_pos ⟨hd0, hne0⟩]
  · intro hconc studies' hok
    obtain ⟨d, rest, hcons⟩ := List.exists_cons_of_ne_nil hconc.1
    have hd0 : ¬d = StudyDirection.not_set := by
      intro hd
      exact hconc.2 (hd ▸ hcons ▸ List.mem_cons_self ..)
    by_cases hne : record.directions = ds
    · simp only [set_study_directions, hcheck, hfind, hcons] at hok
      rw [if_neg (fun hcond => hcond.2 (by rw [← hcons, hne]))] at hok
      have hrep := Except.ok.inj hok
      have heqrec : ({ record with directions := ds } : StudyRecord) = record := by
        rw [← hne]
      rw [heqrec] at hrep
      subst hrep
      exact get_study_record_replace studies sid record record hfind hid
    · have hne0 : ¬d :: rest = ds := hcons ▸ hne
      simp only [set_study_directions, hcheck, hfind, hcons] at hok
      rw [if_pos ⟨hd0, hne0⟩] at hok
      exact absurd hok (by simp)

/-- Witness for C3: setting `[MAXIMIZE]` on a fresh study (directions
`[NOT_SET]`) succeeds and writes the requested sequence. -/
theorem study_directions_invariant_witness :
    ([StudyDirection.maximize] ≠ ([] : List StudyDirection)) ∧
    set_study_directions [studyRec0] 0 [StudyDirection.maximize] =
      .ok (study_replace_one [studyRec0] 0
        { studyRec0 with directions := [StudyDirection.maximize] }) := by
  refine ⟨by decide, ?_⟩
  exact (study_directions_invariant [studyRec0] 0 studyRec0 [StudyDirection.maximize]
    (by decide) rfl rfl).2.1 (Or.inl rfl)

/-- C4 (code behaviour at the claim's failing input): completing a
RUNNING trial via `set_trial_state_values` succeeds but leaves
`datetime_complete` unset — the source never writes that field on any
state transition. -/
theorem set_state_values_never_stamps_datetime_complete :
    recRun0.state = TrialState.running ∧
    Except.map (fun p => p.1.map (fun t => t.datetime_complete))
        (set_trial_state_values [recRun0] 0 TrialState.complete (some [1])) =
      .ok [(none : Option String)] := by
  exact ⟨rfl, rfl⟩

/-- C5: on an existing, updatable trial, a RUNNING request against a
RUNNING current state is a no-op returning `false` with the table
untouched; every other request writes the requested state and values
into the record and returns `true`. -/
theorem set_trial_state_values_noop_or_write (trials : List TrialRecord)
    (tid : Nat) (record : TrialRecord) (st : TrialState) (vs : Option (List Int))
    (hfind : _get_trial_record trials tid = some record)
    (hcheck : _check_trial_id trials tid = .ok ())
    (hupd : record.state.is_finished = false) :
    (record.state = TrialState.running ∧ st = TrialState.running →
      set_trial_state_values trials tid st vs = .ok (trials, false)) ∧
    (¬(record.state = TrialState.running ∧ st = TrialState.running) →
      set_trial_state_values trials tid st vs =
        .ok (trial_replace_one trials tid
          { record with state := st, values := vs }, true)) := by
  constructor
  · intro hrr
    simp only [set_trial_state_values, hcheck, hfind, check_trial_is_updatable,
      hupd, Bool.false_eq_true, if_false]
    rw [if_pos ⟨hrr.1.trans hrr.2.symm, hrr.2⟩]
  · intro hrr
    simp only [set_trial_state_values, hcheck, hfind, check_trial_is_updatable,
      hupd, Bool.false_eq_true, if_false]
    rw [if_neg (fun hc => hrr ⟨hc.1.trans hc.2, hc.2⟩)]

/-- Witness for C5: a RUNNING→RUNNING request is a `false` no-op, and a
RUNNING→COMPLETE request writes state and values and returns `true`. -/
theorem set_trial_state_values_noop_or_write_witness :
    set_trial_state_values [recRun0] 0 TrialState.running none = .ok ([recRun0], false) ∧
    set_trial_state_values [recRun0] 0 TrialState.complete (some [5]) =
      .ok (trial_replace_one [recRun0] 0
        { recRun0 with state := TrialState.complete, values := some [5] }, true) := by
  constructor
  · exact (set_trial_state_values_noop_or_write [recRun0] 0 recRun0 TrialState.running
      none rfl rfl rfl).1 ⟨rfl, rfl⟩
  · exact (set_trial_state_values_noop_or_write [recRun0] 0 recRun0 TrialState.complete
      (some [5]) rfl rfl rfl).2 (by simp)

/-- Counterexample for C6 as stated: on an existing RUNNING trial, both
attribute setters fail outright instead of merging the key. -/
theorem trial_attr_setters_claim_counterexample :
    set_trial_user_attr [recRun0] 0 ("k") 5 = .error .notImplemented ∧
    set_trial_system_attr [recRun0] 0 ("k") 5 = .error .notImplemented := by
  exact ⟨rfl, rfl⟩

/-- C6 amended: `set_trial_user_attr` and `set_trial_system_attr` are
unimplemented — they unconditionally raise `NotImplementedError` and
never modify any stored record. -/
theorem trial_attr_setters_unimplemented (trials : List TrialRecord) (tid : Nat)
    (k : String) (v : Int) :
    set_trial_user_attr trials tid k v = .error .notImplemented ∧
    set_trial_system_attr trials tid k v = .error .notImplemented := by
  exact ⟨rfl, rfl⟩

/-- C7: creating a study under an explicitly supplied name fails with
`DuplicatedStudyError` whenever any existing record — its `deleted` flag
notwithstanding — bears exactly that name (the error precedes the insert,
so nothing is inserted); conversely a successful creation certifies no
existing record, deleted or not, carried the name, so names of deleted
studies are never reassigned through this path. -/
theorem create_study_duplicate_name_global (studies : List StudyRecord)
    (name : String) (now : PyDateTime) :
    ((∃ r ∈ studies, r.study_name = name) →
      create_new_study studies (some name) now = .error .duplicatedStudy) ∧
    (∀ studies' sid, create_new_study studies (some name) now = .ok (studies', sid) →
      ∀ r ∈ studies, r.study_name ≠ name) := by
  constructor
  · rintro ⟨r, hr, hrname⟩
    unfold create_new_study
    rw [if_pos ?_]
    constructor
    · simp
    · intro hlen
      rw [List.length_eq_zero, List.filter_eq_nil_iff] at hlen
      exact hlen r hr (by simp [hrname])
  · intro studies' sid hok r hr hrname
    unfold create_new_study at hok
    split at hok
    · exact absurd hok (by simp)
    · rename_i hcond
      rw [not_and_or] at hcond
      rcases hcond with hcond | hcond
      · exact hcond (Option.some_ne_none name)
      · rw [not_ne_iff, List.length_eq_zero, List.filter_eq_nil_iff] at hcond
        exact hcond r hr (by simp [hrname])

/-- Witness for C7: re-creating the existing name fails with
`DuplicatedStudyError`. -/
theorem create_study_duplicate_name_global_witness :
    create_new_study [studyRec0] (some ("s1")) ⟨2024, 1, 2, 3, 4, 5, 6⟩ =
      .error .duplicatedStudy := by
  exact (create_study_duplicate_name_global [studyRec0] ("s1")
    ⟨2024, 1, 2, 3, 4, 5, 6⟩).1 ⟨studyRec0, by simp, rfl⟩

/-- C8 (code behaviour at the claim's failing input): a timestamp with
`microsecond = 0` serializes without the `.ffffff` suffix, which the
fixed-format parser rejects with `ValueError`, so the round-trip fails;
with a nonzero microsecond the round-trip returns the original
timestamp, and `None` round-trips to `None`. -/
theorem datetime_roundtrip_fails_on_whole_seconds :
    _datetime_to_str (some ⟨2023, 4, 5, 6, 7, 8, 0⟩) = some ("2023-04-05 06:07:08") ∧
    _str_to_datetime (_datetime_to_str (some ⟨2023, 4, 5, 6, 7, 8, 0⟩)) =
      .error (.valueError ("time data does not match format")) ∧
    _str_to_datetime (_datetime_to_str (some ⟨2023, 4, 5, 6, 7, 8, 123456⟩)) =
      .ok (some ⟨2023, 4, 5, 6, 7, 8, 123456⟩) ∧
    _str_to_datetime (_datetime_to_str (none : Option PyDateTime)) = .ok none := by
  refine ⟨rfl, rfl, rfl, rfl⟩

/-- The scan loop, when every record it visits carries a heartbeat,
returns exactly the ids of the records whose heartbeat is older than the
grace period. -/
theorem stale_scan_ok (g now : Int) (l : List TrialRecord)
    (h : ∀ t ∈ l, t.heartbeat ≠ none) :
    ∃ ids, _stale_scan g now l = .ok ids ∧
      ∀ tid, tid ∈ ids ↔ ∃ t ∈ l, t.trial_id = tid ∧
        ∃ hb, t.heartbeat = some hb ∧ now - hb > g * 1000000 := by
  induction l with
  | nil => exact ⟨[], rfl, by simp⟩
  | cons t ts ih =>
    have ht := h t (List.mem_cons_self ..)
    obtain ⟨hb, hhb⟩ := Option.ne_none_iff_exists'.mp ht
    obtain ⟨ids, hids, hmem⟩ := ih (fun x hx => h x (List.mem_cons_of_mem _ hx))
    by_cases hc : now - hb > g * 1000000
    · refine ⟨t.trial_id :: ids, ?_, ?_⟩
      · unfold _stale_scan
        simp only [hhb, hc, if_true, hids]
      · intro tid
        rw [List.mem_cons, hmem tid]
        constructor
        · rintro (rfl | ⟨x, hx, hxid, hb', hhb', hc'⟩)
          · exact ⟨t, List.mem_cons_self .., rfl, hb, hhb, hc⟩
          · exact ⟨x, List.mem_cons_of_mem _ hx, hxid, hb', hhb', hc'⟩
        · rintro ⟨x, hx, hxid, hb', hhb', hc'⟩
          rcases List.mem_cons.mp hx with rfl | hx'
          · exact Or.inl hxid.symm
          · exact Or.inr ⟨x, hx', hxid, hb', hhb', hc'⟩
    · refine ⟨ids, ?_, ?_⟩
      · unfold _stale_scan
        simp only [hhb, hc, if_false, hids]
      · intro tid
        rw [hmem tid]
        constructor
        · rintro ⟨x, hx, hxid, hb', hhb', hc'⟩
          exact ⟨x, List.mem_cons_of_mem _ hx, hxid, hb', hhb', hc'⟩
        · rintro ⟨x, hx, hxid, hb', hhb', hc'⟩
          rcases List.mem_cons.mp hx with rfl | hx'
          · rw [hhb] at hhb'
            obtain rfl := Option.some.inj hhb'
            exact absurd hc' hc
          · exact ⟨x, hx', hxid, hb', hhb', hc'⟩

/-- C9: with heartbeat support enabled (a configured interval) and every
RUNNING trial of the study carrying a recorded heartbeat, the staleness
scan reports exactly the RUNNING trials of the study whose last heartbeat
is older than the grace period — the configured `grace_period`, or twice
`heartbeat_interval` when unset — relative to the backend server time,
and no trial whose heartbeat is within the grace period. -/
theorem stale_trials_reported_exactly (cfg : HeartbeatConfig)
    (trials : List TrialRecord) (sid : Nat) (now hi : Int)
    (hhi : cfg.heartbeat_interval = some hi)
    (hhb : ∀ t ∈ trials, t.study_id = sid → t.state = TrialState.running →
      t.heartbeat ≠ none) :
    ∃ ids, _get_stale_trial_ids cfg trials sid now = .ok ids ∧
      ∀ tid, tid ∈ ids ↔ ∃ t ∈ trials, t.trial_id = tid ∧ t.study_id = sid ∧
        t.state = TrialState.running ∧ ∃ hb, t.heartbeat = some hb ∧
          now - hb > (match cfg.grace_period with
            | none => 2 * hi
            | some g => g) * 1000000 := by
  have hfilt : ∀ t ∈ trials.filter (fun t => t.study_id == sid &&
      t.state == TrialState.running), t.heartbeat ≠ none := by
    intro t ht
    have := List.mem_filter.mp ht
    have hp := this.2
    simp only [Bool.and_eq_true, beq_iff_eq] at hp
    exact hhb t this.1 hp.1 hp.2
  obtain ⟨ids, hids, hmem⟩ := stale_scan_ok
    (match cfg.grace_period with
      | none => 2 * hi
      | some g => g) now _ hfilt
  refine ⟨ids, ?_, ?_⟩
  · unfold _get_stale_trial_ids
    rw [hhi]
    exact hids
  · intro tid
    rw [hmem tid]
    constructor
    · rintro ⟨x, hx, hxid, hb', hhb', hc'⟩
      have := List.mem_filter.mp hx
      have hp := this.2
      simp only [Bool.and_eq_true, beq_iff_eq] at hp
      exact ⟨x, this.1, hxid, hp.1, hp.2, hb', hhb', hc'⟩
    · rintro ⟨x, hx, hxid, hsid, hst, hb', hhb', hc'⟩
      refine ⟨x, List.mem_filter.mpr ⟨hx, ?_⟩, hxid, hb', hhb', hc'⟩
      simp only [Bool.and_eq_true, beq_iff_eq]
      exact ⟨hsid, hst⟩

/-- Witness for C9: with a 10-second interval and default grace period
(20 s), at server time 21 s the scan over a stale trial (heartbeat 0 s)
and a fresh one (heartbeat 2 s) is as the theorem describes. -/
theorem stale_trials_reported_exactly_witness :
    ∃ ids, _get_stale_trial_ids cfg0 [tStale, tFresh] 0 21000000 = .ok ids ∧
      ∀ tid, tid ∈ ids ↔ ∃ t ∈ [tStale, tFresh], t.trial_id = tid ∧ t.study_id = 0 ∧
        t.state = TrialState.running ∧ ∃ hb, t.heartbeat = some hb ∧
          21000000 - hb > (match cfg0.grace_period with
            | none => 2 * 10
            | some g => g) * 1000000 := by
  exact stale_trials_reported_exactly cfg0 [tStale, tFresh] 0 21000000 10 rfl (by decide)

/-- `_check_trial_id` succeeds exactly when the table holds exactly one
document with the id. -/
theorem check_trial_id_ok_iff (trials : List TrialRecord) (tid : Nat) (u : Unit) :
    _check_trial_id trials tid = .ok u ↔
      (trials.filter (fun t => t.trial_id == tid)).length = 1 := by
  unfold _check_trial_id
  split <;> simp_all

/-- No trial document carries a key literally named `"param"`. -/
theorem trialRecordField_param (record : TrialRecord) :
    trialRecordField record ("param") = none := rfl

/-- On any table passing the id check, `get_trial_param` raises
`KeyError("param")`. -/
theorem get_trial_param_key_error {trials : List TrialRecord} {tid : Nat}
    (name : String) (hcheck : _check_trial_id trials tid = .ok ()) :
    get_trial_param trials tid name = .error (.keyError ("param")) := by
  obtain ⟨r, hr, -⟩ := check_trial_id_gives_record hcheck
  simp only [get_trial_param, hcheck, _get_trial_record_field, hr,
    trialRecordField_param]

/-- C10: for every existing trial (one passing the id check) and any
parameter name, `get_trial_param` raises `KeyError` on the field
`"param"` — which no trial document contains, parameters living under
`"params"` — and it still does so for a parameter just stored by a
successful `set_trial_param`. -/
theorem get_trial_param_always_raises (trials : List TrialRecord) (tid : Nat)
    (name : String) :
    (_check_trial_id trials tid = .ok () →
      get_trial_param trials tid name = .error (.keyError ("param"))) ∧
    (∀ v dist trials', set_trial_param trials tid name v dist = .ok trials' →
      get_trial_param trials' tid name = .error (.keyError ("param"))) := by
  constructor
  · exact fun hcheck => get_trial_param_key_error name hcheck
  · intro v dist trials' hset
    unfold set_trial_param at hset
    split at hset
    · exact absurd hset (by simp)
    · rename_i u hcheck
      split at hset
      · exact absurd hset (by simp)
      · rename_i rec hrec
        split at hset
        · exact absurd hset (by simp)
        · have htrials' := Except.ok.inj hset
          subst htrials'
          have hrecid : rec.trial_id = tid := by
            have := List.find?_some hrec
            simpa using this
          have hlen := (check_trial_id_ok_iff trials tid u).mp hcheck
          have hpres := trial_replace_preserves_count trials tid
            { rec with
              params := dictInsert rec.params name (dist.to_external_repr v)
              distributions := dictInsert rec.distributions name dist.asJson }
            hrecid
          apply get_trial_param_key_error name
          rw [check_trial_id_ok_iff, hpres]
          exact hlen

/-- Witness for C10: on a table holding one RUNNING trial, the getter
raises `KeyError("param")`. -/
theorem get_trial_param_always_raises_witness :
    _check_trial_id [recRun0] 0 = .ok () ∧
    get_trial_param [recRun0] 0 ("x") = .error (.keyError ("param")) := by
  refine ⟨rfl, ?_⟩
  exact (get_trial_param_always_raises [recRun0] 0 ("x")).1 rfl
